import Mathlib

/-!
Verification of the Energy_Trading repository's deviation-analysis pipeline.

The repository holds two near-duplicate Streamlit dashboard scripts,
`Energy_Trading_Assistant_Complete.py` and `main_energy_trading_assistant.py`.
This file gives a shallow embedding of the computational fragments those
scripts perform on uploaded tables (pandas DataFrames read from CSV files):
the positional forecast-vs-actual combination (Forecast Deviation tab),
the forecast accuracy table with its percentage-error column (Forecast
Accuracy tab), the market-feed fallback, the narrative-request error
handling, the contract-excerpt truncation, the per-call chat parameters,
and the 30-day price generator — and proves the stated properties of each.

Modelling conventions:
* A CSV cell is either a string or an exact rational number (`Cell`); a
  pandas DataFrame read from CSV is a rectangular list of rows (`Table`).
* pandas missing values (`NaN`) and non-finite division results (`inf`,
  `NaN`) are modelled by `none` in `Option`-valued cells and numbers:
  they are sentinel values that propagate through arithmetic without
  raising, exactly as pandas float arithmetic behaves.
* Assigning a Series to a DataFrame column aligns on the row index; both
  frames carry the default `RangeIndex`, so row `i` of the assigned
  column takes the source's entry `i` when it exists and `NaN` otherwise,
  and the frame keeps its own row count.  The embedding makes this
  alignment explicit by indexing with `·[i]?` over `List.range`.
-/

namespace EnergyTrading

/-- A single CSV cell: pandas parses each entry of an uploaded file as
either a string or a number; numbers are modelled as exact rationals. -/
inductive Cell where
  | str : String → Cell
  | num : ℚ → Cell
deriving DecidableEq

/-- Numeric view of a cell: `some q` for a numeric cell, `none` for a
string cell (on which pandas column arithmetic would not produce a
number). -/
def Cell.val? : Cell → Option ℚ
  | Cell.num q => some q
  | Cell.str _ => none

/-- A DataFrame read from CSV, as its list of rows (header dropped). -/
abbrev Table := List (List Cell)

/-- `shape[1]` of the frame: the number of columns, read off the first
row (CSV frames are rectangular, see `Rectangular`). -/
def ncols (t : Table) : ℕ := (t.head?.map List.length).getD 0

/-- pandas frames read from CSV are rectangular: every row has exactly
`ncols t` entries. -/
def Rectangular (t : Table) : Prop := ∀ r ∈ t, r.length = ncols t

instance (t : Table) : Decidable (Rectangular t) := by
  unfold Rectangular; infer_instance

/-- `t.iloc[:, j]`: the `j`-th column by position.  `none` marks an entry
a ragged row lacks; for a `Rectangular` table with `j < ncols t` every
entry is `some`. -/
def col (t : Table) (j : ℕ) : List (Option Cell) := t.map (fun r => r[j]?)

/-- The actual-generation value column, as both scripts select it
(`Energy_Trading_Assistant_Complete.py` line 123,
`main_energy_trading_assistant.py` lines 123 and 332):
`df_actual.iloc[:, 2] if df_actual.shape[1] > 2 else df_actual.iloc[:, 1]`. -/
def actualSeries (a : Table) : List (Option Cell) :=
  if ncols a > 2 then col a 2 else col a 1

/-- One row of the Forecast Deviation tab's combined frame: the first
three forecast columns plus the aligned `Actual (MW)` entry (`none`
models the `NaN` pandas fills in when the actual table has no row at
this index). -/
structure CombinedRow where
  base : List Cell
  actualMW : Option Cell
deriving DecidableEq

/-- The Forecast Deviation tab's combined frame
(`Energy_Trading_Assistant_Complete.py` lines 122-123,
`main_energy_trading_assistant.py` lines 122-123):
`combined_df = df_forecast.iloc[:, [0, 1, 2]].copy()` followed by
`combined_df['Actual (MW)'] = <actualSeries>`.  The column assignment
aligns on the `RangeIndex`, so the frame keeps `len(df_forecast)` rows;
entry `i` of the new column is the series' entry `i` when `i` is below
the actual table's length and `NaN` otherwise. -/
def dfCombined (f a : Table) : List CombinedRow :=
  let s := actualSeries a
  (List.range f.length).map (fun i =>
    ⟨(f[i]?.getD []).take 3, s[i]?.getD none⟩)

/-- Elementwise subtraction of two aligned cells, as pandas performs it
for `df['Actual (MW)'] - df['Forecast (MW)']`: a rational when both
sides are numeric, the `NaN` sentinel (`none`) otherwise. -/
def cellSub (x y : Option Cell) : Option ℚ :=
  match x.bind Cell.val?, y.bind Cell.val? with
  | some a, some b => some (a - b)
  | _, _ => none

/-- `(difference / denominator) * 100`, as pandas evaluates the
`Error (%)` expression elementwise.  Division of a float by zero yields
a non-finite float (`inf` or `NaN`), never an exception; every
non-finite outcome is modelled by the `none` sentinel. -/
def pctOfDiff (d : Option ℚ) (den : Option Cell) : Option ℚ :=
  match d, den.bind Cell.val? with
  | some dv, some q => if q = 0 then none else some (dv / q * 100)
  | _, _ => none

/-- One row of the Forecast Accuracy tab's frame.  `difference` records
the row's value of the subexpression `Actual (MW) - Forecast (MW)` that
the `Error (%)` formula divides by the forecast. -/
structure AccuracyRow where
  region : Option Cell
  forecastMW : Option Cell
  actualMW : Option Cell
  difference : Option ℚ
  errorPct : Option ℚ
deriving DecidableEq

/-- The Forecast Accuracy tab's frame (`main_energy_trading_assistant.py`
lines 329-333):
`df_accuracy['Region'] = df_forecast.iloc[:, 1]`,
`df_accuracy['Forecast (MW)'] = df_forecast.iloc[:, 2]`,
`df_accuracy['Actual (MW)'] = <actualSeries>`,
`df_accuracy['Error (%)'] = ((Actual - Forecast) / Forecast) * 100`.
The first assignment gives the empty frame the forecast's `RangeIndex`,
so the frame has `len(df_forecast)` rows and later columns align on it. -/
def dfAccuracy (f a : Table) : List AccuracyRow :=
  let act := actualSeries a
  (List.range f.length).map (fun i =>
    let fc := (col f 2)[i]?.getD none
    let ac := act[i]?.getD none
    let d := cellSub ac fc
    ⟨(col f 1)[i]?.getD none, fc, ac, d, pctOfDiff d fc⟩)

/-- One record of the Market Summary feed: region, price (£/kWh),
volume (MWh). -/
structure MarketRecord where
  region : String
  price : ℚ
  volume : ℚ
deriving DecidableEq

/-- The fixed simulated fallback table of
`Energy_Trading_Assistant_Complete.py` lines 90-94: regions
North/South/East/West with prices 0.12/0.15/0.14/0.13 and volumes
500/700/600/450. -/
def fallbackRecordsComplete : List MarketRecord :=
  [⟨"North", 12/100, 500⟩, ⟨"South", 15/100, 700⟩,
   ⟨"East", 14/100, 600⟩, ⟨"West", 13/100, 450⟩]

/-- The fixed simulated fallback table of
`main_energy_trading_assistant.py` lines 91-95: eight regions with their
prices and volumes. -/
def fallbackRecordsMain : List MarketRecord :=
  [⟨"North", 12/100, 500⟩, ⟨"South", 15/100, 700⟩,
   ⟨"East", 14/100, 600⟩, ⟨"West", 13/100, 450⟩,
   ⟨"Midlands", 11/100, 520⟩, ⟨"Scotland", 16/100, 640⟩,
   ⟨"Wales", 13/100, 580⟩, ⟨"London", 17/100, 720⟩]

/-- The Market Summary tab of `Energy_Trading_Assistant_Complete.py`
(lines 71-95): the whole fetch-and-parse of the remote feed sits in a
`try` block; any exception — network failure, malformed JSON, timeout —
lands in the `except` branch, which substitutes the fixed fallback
table.  The remote attempt is modelled as an `Except`: `ok records` for
a successful fetch-and-parse, `error e` for any raised exception. -/
def fetchMarketComplete (remote : Except String (List MarketRecord)) :
    List MarketRecord :=
  match remote with
  | Except.ok records => records
  | Except.error _ => fallbackRecordsComplete

/-- The Market Summary tab of `main_energy_trading_assistant.py`
(lines 71-95), same try/except shape with the eight-region fallback. -/
def fetchMarketMain (remote : Except String (List MarketRecord)) :
    List MarketRecord :=
  match remote with
  | Except.ok records => records
  | Except.error _ => fallbackRecordsMain

/-- The Forecast Deviation tab's narrative request in
`main_energy_trading_assistant.py` (lines 135-144): the
`client.chat.completions.create` call is wrapped in `try`/`except`, and
the `except` branch shows `st.error(f"Error in forecast deviation
analysis: {e}")`.  The backend outcome is modelled as an `Except`; the
user always receives a string. -/
def deviationNarrativeMain (backend : Except String String) : String :=
  match backend with
  | Except.ok narrative => narrative
  | Except.error e => "Error in forecast deviation analysis: " ++ e

/-- The Forecast Deviation tab's narrative request in
`Energy_Trading_Assistant_Complete.py` (lines 129-135): the
`client.chat.completions.create` call has no surrounding `try`/`except`,
so a backend exception propagates out of the tab unhandled.  The step is
modelled as passing the backend outcome through: an `error` result is
the uncaught exception. -/
def deviationNarrativeComplete (backend : Except String String) :
    Except String String :=
  backend

/-- An uploaded contract/document text, as its character sequence. -/
abbrev Text := List Char

/-- The Contract Clause Analysis tab of
`Energy_Trading_Assistant_Complete.py` (line 187): the prompt embeds
`contract_text[:1000]`, the excerpt truncated to 1000 characters. -/
def contractExcerptComplete (contractText : Text) : Text :=
  contractText.take 1000

/-- The Trading Strategy tab of `main_energy_trading_assistant.py`
(line 231): the prompt embeds `contract_text` read as
`contract_file.read().decode("utf-8")[:1000]`, truncated to 1000
characters. -/
def contractExcerptStrategyMain (contractText : Text) : Text :=
  contractText.take 1000

/-- The Contract Clause Analysis tab of
`main_energy_trading_assistant.py` (lines 205-209): the prompt embeds
`contract_text = contract_file.read().decode("utf-8")` with no
truncation at all. -/
def contractExcerptClauseMain (contractText : Text) : Text :=
  contractText

/-- The per-call parameters of one `client.chat.completions.create`
call: the tab it serves, its `max_tokens`, and its `temperature`
(`0.4` is `2/5`, `0.3` is `3/10`). -/
structure ChatCall where
  tab : String
  maxTokens : ℕ
  temperature : ℚ
deriving DecidableEq

/-- Every `client.chat.completions.create` call of
`Energy_Trading_Assistant_Complete.py`, in source order (lines 81, 101,
129, 148, 166, 188, 209, 251, 270, 289, 329). -/
def chatCallsComplete : List ChatCall :=
  [⟨"Market Summary live", 350, 2/5⟩,
   ⟨"Market Summary fallback", 350, 2/5⟩,
   ⟨"Forecast Deviation", 400, 2/5⟩,
   ⟨"Regulatory Advisory", 400, 2/5⟩,
   ⟨"Trade Log Insights", 400, 2/5⟩,
   ⟨"Contract Clause Analysis", 500, 2/5⟩,
   ⟨"Price Forecast AI", 500, 2/5⟩,
   ⟨"Price Forecast AI strategy", 1000, 2/5⟩,
   ⟨"Emerging Risks live", 500, 2/5⟩,
   ⟨"Emerging Risks fallback", 500, 2/5⟩,
   ⟨"Trading Strategy", 1000, 2/5⟩]

/-- Every `client.chat.completions.create` call of
`main_energy_trading_assistant.py`, in source order (lines 82, 102, 136,
159, 171, 191, 210, 264, 291, 309, 339, 367, 396). -/
def chatCallsMain : List ChatCall :=
  [⟨"Market Summary live", 350, 2/5⟩,
   ⟨"Market Summary fallback", 350, 2/5⟩,
   ⟨"Forecast Deviation", 400, 2/5⟩,
   ⟨"Regulatory Advisory extract", 400, 3/10⟩,
   ⟨"Regulatory Advisory review", 400, 3/10⟩,
   ⟨"Trade Log Insights", 350, 2/5⟩,
   ⟨"Contract Clause Analysis", 450, 3/10⟩,
   ⟨"Trading Strategy", 1000, 2/5⟩,
   ⟨"Price Volume Tracker live", 300, 2/5⟩,
   ⟨"Price Volume Tracker fallback", 300, 2/5⟩,
   ⟨"Forecast Accuracy", 400, 2/5⟩,
   ⟨"Risk and Clause Flags", 400, 2/5⟩,
   ⟨"Schedule Optimizer", 500, 2/5⟩]

/-- Python's `round(x, 3)` on the generated price: rounding to the
nearest multiple of `1/1000`. -/
def round3 (q : ℚ) : ℚ := (round (q * 1000) : ℚ) / 1000

/-- The Price Forecast AI tab of `Energy_Trading_Assistant_Complete.py`
(lines 201-203):
`price_data = [(today + datetime.timedelta(days=i),
round(random.uniform(0.11, 0.18), 3)) for i in range(30)]`.
Dates are modelled as day numbers (`today` an integer, a later date a
larger integer); the random draw is modelled by a value sequence
`u : ℕ → ℚ`, with `random.uniform(0.11, 0.18)` guaranteeing
`0.11 ≤ u i ≤ 0.18`. -/
def priceData (today : ℤ) (u : ℕ → ℚ) : List (ℤ × ℚ) :=
  (List.range 30).map (fun (i : ℕ) => (today + (i : ℤ), round3 (u i)))

/-- The date column the Price Forecast AI table is expected to carry:
today through today plus 29 days, in order. -/
def expectedDates (today : ℤ) : List ℤ :=
  (List.range 30).map (fun (i : ℕ) => today + (i : ℤ))

/-- Strict ascending order of a date column. -/
def strictAsc (l : List ℤ) : Prop := List.Pairwise (· < ·) l

/-- A generated price is in bounds when it lies in the closed interval
`[0.11, 0.18]` and is a multiple of `1/1000` (three decimal places). -/
def priceOk (p : ℚ) : Bool :=
  decide (11/100 ≤ p ∧ p ≤ 18/100 ∧ (p * 1000).den = 1)

/-- A fixed admissible value sequence for `random.uniform(0.11, 0.18)`,
used to instantiate the price-forecast theorem. -/
def constPrice : ℕ → ℚ := fun _ => 145/1000

/-! ### Helper lemmas on positional alignment -/

theorem col_length (t : Table) (j : ℕ) : (col t j).length = t.length := by
  simp [col]

theorem actualSeries_length (a : Table) :
    (actualSeries a).length = a.length := by
  unfold actualSeries
  split <;> simp [col]

/-- Reading a list at indices `0, …, n-1` with a default for indices past
the end: the pandas index-alignment pattern.  The result is the first
`n` entries followed by defaults for the missing tail. -/
theorem aligned_range_map {α : Type} (l : List α) (d : α) (n : ℕ) :
    (List.range n).map (fun i => l[i]?.getD d) =
      l.take n ++ List.replicate (n - l.length) d := by
  induction n with
  | zero => simp
  | succ n ih =>
    rw [List.range_succ, List.map_append, ih]
    simp only [List.map_cons, List.map_nil]
    by_cases h : n < l.length
    · have hx : l[n]? = some l[n] := List.getElem?_eq_getElem h
      have h1 : n - l.length = 0 := Nat.sub_eq_zero_of_le h.le
      have h2 : n + 1 - l.length = 0 := Nat.sub_eq_zero_of_le h
      rw [List.take_succ, hx]
      simp [h1, h2]
    · push_neg at h
      have hx : l[n]? = none := List.getElem?_eq_none_iff.mpr h
      have t1 : l.take n = l := List.take_of_length_le h
      have t2 : l.take (n + 1) = l := List.take_of_length_le (h.trans (Nat.le_succ n))
      rw [hx, t1, t2, Nat.succ_sub h, List.replicate_succ']
      simp

/-- The row the Forecast Accuracy frame holds at any index below the
forecast table's length. -/
theorem dfAccuracy_row (f a : Table) (i : ℕ) (hi : i < f.length) :
    (dfAccuracy f a)[i]? = some
      ⟨(col f 1)[i]?.getD none, (col f 2)[i]?.getD none,
       (actualSeries a)[i]?.getD none,
       cellSub ((actualSeries a)[i]?.getD none) ((col f 2)[i]?.getD none),
       pctOfDiff
         (cellSub ((actualSeries a)[i]?.getD none) ((col f 2)[i]?.getD none))
         ((col f 2)[i]?.getD none)⟩ := by
  simp only [dfAccuracy]
  rw [List.getElem?_map, List.getElem?_range hi]
  rfl

theorem dfAccuracy_length (f a : Table) : (dfAccuracy f a).length = f.length := by
  simp [dfAccuracy]

theorem dfCombined_length (f a : Table) : (dfCombined f a).length = f.length := by
  simp [dfCombined]

/-- An index at which a column holds an entry is below the table's
length. -/
theorem lt_length_of_col (f : Table) (j i : ℕ) (c : Option Cell)
    (h : (col f j)[i]? = some c) : i < f.length := by
  rw [List.getElem?_eq_some] at h
  have := h.1
  rwa [col_length] at this

/-- An index at which the selected actual column holds an entry is below
the actual table's length. -/
theorem lt_length_of_actualSeries (a : Table) (i : ℕ) (c : Option Cell)
    (h : (actualSeries a)[i]? = some c) : i < a.length := by
  rw [List.getElem?_eq_some] at h
  have := h.1
  rwa [actualSeries_length] at this

/-! ### C1: positional combination with unequal row counts -/

/-- A 3-row forecast table (date, region, value columns). -/
def cexForecast3 : Table :=
  [[Cell.num 1, Cell.num 10, Cell.num 100],
   [Cell.num 2, Cell.num 20, Cell.num 200],
   [Cell.num 3, Cell.num 30, Cell.num 300]]

/-- A 2-row actual table (date, region, value columns). -/
def cexActual2 : Table :=
  [[Cell.num 1, Cell.num 10, Cell.num 90],
   [Cell.num 2, Cell.num 20, Cell.num 190]]

/-- C1 counterexample: combining a 3-row forecast table with a 2-row
actual table under the positional strategy yields a frame of 3 rows —
the forecast table's length — not `min 3 2 = 2` rows as the claim
states; the forecast's unmatched trailing row is kept, with the `NaN`
sentinel in its `Actual (MW)` column, rather than dropped. -/
theorem combined_length_not_min :
    (dfCombined cexForecast3 cexActual2).length = 3 ∧
    Nat.min cexForecast3.length cexActual2.length = 2 ∧
    (dfCombined cexForecast3 cexActual2)[2]? =
      some ⟨[Cell.num 3, Cell.num 30, Cell.num 300], none⟩ :=
  ⟨by decide, by decide, by decide⟩

/-- C1 (amended): under the positional strategy with unequal row counts,
the combined frame has exactly `len(forecast)` rows and no error is
raised; its `Actual (MW)` column is the actual series truncated to the
forecast's length and padded with the `NaN` sentinel — so a longer
actual table loses its trailing rows, while a longer forecast table
keeps its trailing rows with a missing actual value. -/
theorem combined_positional_lengths (f a : Table)
    (_hne : f.length ≠ a.length)
    (_hfr : Rectangular f) (_har : Rectangular a)
    (_hf3 : 3 ≤ ncols f) (_ha2 : 2 ≤ ncols a) :
    (dfCombined f a).length = f.length ∧
    (dfCombined f a).map CombinedRow.actualMW =
      (actualSeries a).take f.length ++
        List.replicate (f.length - a.length) none := by
  refine ⟨dfCombined_length f a, ?_⟩
  simp only [dfCombined, List.map_map]
  have hcomp :
      (CombinedRow.actualMW ∘ fun (i : ℕ) =>
          (⟨(f[i]?.getD []).take 3, (actualSeries a)[i]?.getD none⟩ :
            CombinedRow)) =
        fun (i : ℕ) => (actualSeries a)[i]?.getD none := rfl
  rw [hcomp, aligned_range_map, actualSeries_length]

/-- C1 witness: the amended statement evaluated on the concrete 3-row /
2-row pair. -/
theorem combined_positional_lengths_witness :
    (cexForecast3.length ≠ cexActual2.length ∧
     Rectangular cexForecast3 ∧ Rectangular cexActual2 ∧
     3 ≤ ncols cexForecast3 ∧ 2 ≤ ncols cexActual2) ∧
    ((dfCombined cexForecast3 cexActual2).length = cexForecast3.length ∧
     (dfCombined cexForecast3 cexActual2).map CombinedRow.actualMW =
       (actualSeries cexActual2).take cexForecast3.length ++
         List.replicate (cexForecast3.length - cexActual2.length) none) :=
  ⟨⟨by decide, by decide, by decide, by decide, by decide⟩,
   combined_positional_lengths cexForecast3 cexActual2
     (by decide) (by decide) (by decide) (by decide) (by decide)⟩

/-! ### C2: equal-length positional pairs -/

/-- C2: for equal-length, well-formed forecast/actual tables combined
positionally, the accuracy frame (and the combined frame) has exactly as
many rows as each input, and the difference the `Error (%)` formula is
built on at row `i` is exactly the actual value minus the forecast value
of that row. -/
theorem accuracy_equal_length_difference (f a : Table) (i : ℕ) (qf qa : ℚ)
    (hlen : f.length = a.length)
    (_hfr : Rectangular f) (_har : Rectangular a)
    (_hf3 : 3 ≤ ncols f) (_ha2 : 2 ≤ ncols a)
    (hfv : (col f 2)[i]? = some (some (Cell.num qf)))
    (hav : (actualSeries a)[i]? = some (some (Cell.num qa))) :
    (dfAccuracy f a).length = f.length ∧
    (dfAccuracy f a).length = a.length ∧
    (dfCombined f a).length = f.length ∧
    ((dfAccuracy f a)[i]?).map AccuracyRow.difference =
      some (some (qa - qf)) := by
  have hi : i < f.length := lt_length_of_col f 2 i _ hfv
  refine ⟨dfAccuracy_length f a, hlen ▸ dfAccuracy_length f a,
    dfCombined_length f a, ?_⟩
  rw [dfAccuracy_row f a i hi, hfv, hav]
  simp [cellSub, Cell.val?]

/-- A 2-row forecast table for the C2 witness. -/
def eqForecast2 : Table :=
  [[Cell.num 1, Cell.num 10, Cell.num 100],
   [Cell.num 2, Cell.num 20, Cell.num 200]]

/-- A 2-row actual table for the C2 witness. -/
def eqActual2 : Table :=
  [[Cell.num 1, Cell.num 10, Cell.num 90],
   [Cell.num 2, Cell.num 20, Cell.num 210]]

/-- C2 witness: the theorem evaluated on a concrete equal-length pair;
row 1 has forecast 200, actual 210, difference 10. -/
theorem accuracy_equal_length_difference_witness :
    (eqForecast2.length = eqActual2.length ∧
     (col eqForecast2 2)[1]? = some (some (Cell.num 200)) ∧
     (actualSeries eqActual2)[1]? = some (some (Cell.num 210))) ∧
    ((dfAccuracy eqForecast2 eqActual2).length = eqForecast2.length ∧
     (dfAccuracy eqForecast2 eqActual2).length = eqActual2.length ∧
     (dfCombined eqForecast2 eqActual2).length = eqForecast2.length ∧
     ((dfAccuracy eqForecast2 eqActual2)[1]?).map AccuracyRow.difference =
       some (some ((210 : ℚ) - 200))) :=
  ⟨⟨by decide, by decide, by decide⟩,
   accuracy_equal_length_difference eqForecast2 eqActual2 1 200 210
     (by decide) (by decide) (by decide) (by decide) (by decide)
     (by decide) (by decide)⟩

/-! ### C3: zero denominator yields a sentinel, not an error -/

/-- Dividing by a zero denominator cell always yields the sentinel,
whatever the numerator difference is. -/
theorem pctOfDiff_zero_den (d : Option ℚ) :
    pctOfDiff d (some (Cell.num 0)) = none := by
  cases d <;> simp [pctOfDiff, Cell.val?]

/-- C3: when the denominator (the forecast value) of a row is exactly 0,
the `Error (%)` entry of that row is the sentinel (`NaN`-class) value,
no error is raised, and the frame still carries all `len(forecast)`
rows — the computation of the remaining rows is not aborted. -/
theorem accuracy_zero_denominator_sentinel (f a : Table) (i : ℕ)
    (_hfr : Rectangular f) (_har : Rectangular a)
    (_hf3 : 3 ≤ ncols f) (_ha2 : 2 ≤ ncols a)
    (hf0 : (col f 2)[i]? = some (some (Cell.num 0))) :
    ((dfAccuracy f a)[i]?).map AccuracyRow.errorPct = some none ∧
    (dfAccuracy f a).length = f.length := by
  have hi : i < f.length := lt_length_of_col f 2 i _ hf0
  refine ⟨?_, dfAccuracy_length f a⟩
  rw [dfAccuracy_row f a i hi, hf0]
  simp [pctOfDiff_zero_den]

/-- A 2-row forecast table whose row 0 forecast value is 0. -/
def zeroForecast2 : Table :=
  [[Cell.num 1, Cell.num 10, Cell.num 0],
   [Cell.num 2, Cell.num 20, Cell.num 50]]

/-- A 2-row actual table paired with `zeroForecast2`. -/
def zeroActual2 : Table :=
  [[Cell.num 1, Cell.num 10, Cell.num 40],
   [Cell.num 2, Cell.num 20, Cell.num 60]]

/-- C3 witness: on the concrete pair whose row 0 has forecast 0, the
error entry of row 0 is the sentinel and both rows are still present
(and row 1's error is computed normally, to 20%). -/
theorem accuracy_zero_denominator_sentinel_witness :
    ((col zeroForecast2 2)[0]? = some (some (Cell.num 0))) ∧
    (((dfAccuracy zeroForecast2 zeroActual2)[0]?).map AccuracyRow.errorPct =
       some none ∧
     (dfAccuracy zeroForecast2 zeroActual2).length = zeroForecast2.length) ∧
    ((dfAccuracy zeroForecast2 zeroActual2)[1]?).map AccuracyRow.errorPct =
      some (some 20) :=
  ⟨by decide,
   accuracy_zero_denominator_sentinel zeroForecast2 zeroActual2 0
     (by decide) (by decide) (by decide) (by decide) (by decide),
   by norm_num [dfAccuracy, zeroForecast2, zeroActual2, actualSeries, ncols,
     col, cellSub, pctOfDiff, Cell.val?, List.range_succ]⟩

/-! ### C4: the percent-error formula and its denominator -/

/-- The single-row forecast table of the end-to-end scenario:
(2024-01-01, North, 100). -/
def scenarioForecast : Table :=
  [[Cell.str "2024-01-01", Cell.str "North", Cell.num 100]]

/-- The single-row actual table of the end-to-end scenario:
(2024-01-01, North, 90). -/
def scenarioActual : Table :=
  [[Cell.str "2024-01-01", Cell.str "North", Cell.num 90]]

/-- C4 counterexample: on the scenario pair the code produces one row
with difference `-10` — but its percent error is `-10` (difference
divided by the *forecast* value 100), not `-10/90*100 ≈ -11.11`
(difference divided by the actual value) as the claim states. -/
theorem percent_error_denominator_cex :
    (dfAccuracy scenarioForecast scenarioActual).map AccuracyRow.difference =
      [some (-10)] ∧
    (dfAccuracy scenarioForecast scenarioActual).map AccuracyRow.errorPct =
      [some (-10)] ∧
    ¬ ((-10 : ℚ) = -10 / 90 * 100) := by
  refine ⟨?_, ?_, by norm_num⟩ <;>
    norm_num [dfAccuracy, scenarioForecast, scenarioActual, actualSeries,
      ncols, col, cellSub, pctOfDiff, Cell.val?, List.range_succ]

/-- C4 (amended): each accuracy row with numeric values satisfies
`percentError = difference / forecastValue * 100` (the denominator is
the forecast, and the entry is the sentinel when it is 0); the rows are
aligned by position — the scripts have no keyed join, which coincides
with a (date, region) key join for the single-row scenario tables. -/
theorem percent_error_formula (f a : Table) (i : ℕ) (qf qa : ℚ)
    (_hfr : Rectangular f) (_har : Rectangular a)
    (_hf3 : 3 ≤ ncols f) (_ha2 : 2 ≤ ncols a)
    (hq : qf ≠ 0)
    (hfv : (col f 2)[i]? = some (some (Cell.num qf)))
    (hav : (actualSeries a)[i]? = some (some (Cell.num qa))) :
    (dfAccuracy f a).length = f.length ∧
    ((dfAccuracy f a)[i]?).map AccuracyRow.difference =
      some (some (qa - qf)) ∧
    ((dfAccuracy f a)[i]?).map AccuracyRow.errorPct =
      some (some ((qa - qf) / qf * 100)) := by
  have hi : i < f.length := lt_length_of_col f 2 i _ hfv
  refine ⟨dfAccuracy_length f a, ?_, ?_⟩ <;>
    rw [dfAccuracy_row f a i hi, hfv, hav] <;>
    simp [cellSub, pctOfDiff, Cell.val?, hq]

/-- C4 witness: the amended formula evaluated on the scenario pair —
the single output row has difference `90 - 100 = -10` and percent error
`(90 - 100) / 100 * 100 = -10`. -/
theorem percent_error_formula_witness :
    ((col scenarioForecast 2)[0]? = some (some (Cell.num 100)) ∧
     (actualSeries scenarioActual)[0]? = some (some (Cell.num 90))) ∧
    ((dfAccuracy scenarioForecast scenarioActual).length =
       scenarioForecast.length ∧
     ((dfAccuracy scenarioForecast scenarioActual)[0]?).map
         AccuracyRow.difference = some (some ((90 : ℚ) - 100)) ∧
     ((dfAccuracy scenarioForecast scenarioActual)[0]?).map
         AccuracyRow.errorPct = some (some (((90 : ℚ) - 100) / 100 * 100))) ∧
    ((90 : ℚ) - 100) / 100 * 100 = -10 :=
  ⟨⟨by decide, by decide⟩,
   percent_error_formula scenarioForecast scenarioActual 0 100 90
     (by decide) (by decide) (by decide) (by decide) (by norm_num)
     (by decide) (by decide),
   by norm_num⟩

/-! ### C5: market feed fallback -/

/-- C5: whenever the remote fetch fails — for any raised exception
(network failure, malformed JSON, timeout) — each Market Summary tab
returns exactly its fixed documented fallback table, with the same
region names and the same record count, instead of failing the
caller. -/
theorem market_feed_fallback (e : String) :
    fetchMarketComplete (Except.error e) = fallbackRecordsComplete ∧
    (fetchMarketComplete (Except.error e)).map MarketRecord.region =
      ["North", "South", "East", "West"] ∧
    (fetchMarketComplete (Except.error e)).length = 4 ∧
    fetchMarketMain (Except.error e) = fallbackRecordsMain ∧
    (fetchMarketMain (Except.error e)).map MarketRecord.region =
      ["North", "South", "East", "West", "Midlands", "Scotland", "Wales",
       "London"] ∧
    (fetchMarketMain (Except.error e)).length = 8 :=
  ⟨rfl, rfl, rfl, rfl, rfl, rfl⟩

/-- C5 witness: the fallback behavior evaluated on a concrete forced
failure. -/
theorem market_feed_fallback_witness :
    fetchMarketComplete (Except.error "ConnectionError") =
      fallbackRecordsComplete ∧
    (fetchMarketComplete (Except.error "ConnectionError")).map
        MarketRecord.region = ["North", "South", "East", "West"] ∧
    (fetchMarketComplete (Except.error "ConnectionError")).length = 4 ∧
    fetchMarketMain (Except.error "ConnectionError") = fallbackRecordsMain ∧
    (fetchMarketMain (Except.error "ConnectionError")).map
        MarketRecord.region =
      ["North", "South", "East", "West", "Midlands", "Scotland", "Wales",
       "London"] ∧
    (fetchMarketMain (Except.error "ConnectionError")).length = 8 :=
  market_feed_fallback "ConnectionError"

/-! ### C6: narrative requester error handling -/

/-- C6 counterexample: in `Energy_Trading_Assistant_Complete.py`'s
Forecast Deviation tab the chat call has no surrounding try/except, so a
backend failure propagates as a raw exception — the caller does not
receive a string. -/
theorem narrative_unguarded_cex :
    deviationNarrativeComplete (Except.error "APIConnectionError") =
      Except.error "APIConnectionError" ∧
    (deviationNarrativeComplete (Except.error "APIConnectionError")).isOk =
      false :=
  ⟨rfl, rfl⟩

/-- C6 (amended): in `main_energy_trading_assistant.py`'s Forecast
Deviation tab the chat call is guarded, so the caller always receives a
string — the narrative on success, and on failure a human-readable
message carrying the distinct leading marker
`Error in forecast deviation analysis: `; in
`Energy_Trading_Assistant_Complete.py`'s Forecast Deviation tab the same
call is unguarded and the backend exception propagates. -/
theorem narrative_guarded_main (e s : String) :
    deviationNarrativeMain (Except.error e) =
      "Error in forecast deviation analysis: " ++ e ∧
    deviationNarrativeMain (Except.ok s) = s ∧
    deviationNarrativeComplete (Except.error e) = Except.error e :=
  ⟨rfl, rfl, rfl⟩

/-- C6 witness: the guarded behavior evaluated on a concrete failure and
a concrete narrative. -/
theorem narrative_guarded_main_witness :
    deviationNarrativeMain (Except.error "RateLimitError") =
      "Error in forecast deviation analysis: " ++ "RateLimitError" ∧
    deviationNarrativeMain (Except.ok "Demand exceeds forecast.") =
      "Demand exceeds forecast." ∧
    deviationNarrativeComplete (Except.error "RateLimitError") =
      Except.error "RateLimitError" :=
  narrative_guarded_main "RateLimitError" "Demand exceeds forecast."

/-! ### C7: contract excerpt truncation -/

/-- A 3001-character contract text. -/
def longContract : Text := List.replicate 3001 'a'

/-- C7 counterexample: the Contract Clause Analysis tab of
`main_energy_trading_assistant.py` embeds the uploaded contract text
with no truncation, so for a 3001-character upload the embedded excerpt
has 3001 characters — beyond the whole claimed 1000–3000 budget. -/
theorem contract_untruncated_cex :
    (contractExcerptClauseMain longContract).length = 3001 ∧
    ¬ ((contractExcerptClauseMain longContract).length ≤ 3000) := by
  have h : (contractExcerptClauseMain longContract).length = 3001 := by
    unfold contractExcerptClauseMain longContract
    rw [List.length_replicate]
  exact ⟨h, by omega⟩

/-- C7 (amended): the Contract Clause Analysis tab of
`Energy_Trading_Assistant_Complete.py` and the Trading Strategy tab of
`main_energy_trading_assistant.py` truncate the embedded contract
excerpt to at most 1000 characters; the Contract Clause Analysis tab of
`main_energy_trading_assistant.py` embeds the full text with no
truncation at all. -/
theorem contract_excerpt_budget (t : Text) :
    (contractExcerptComplete t).length ≤ 1000 ∧
    (contractExcerptStrategyMain t).length ≤ 1000 ∧
    contractExcerptClauseMain t = t :=
  ⟨List.length_take_le 1000 t, List.length_take_le 1000 t, rfl⟩

/-- C7 witness: the budget facts evaluated on the concrete
3001-character contract text. -/
theorem contract_excerpt_budget_witness :
    (contractExcerptComplete longContract).length ≤ 1000 ∧
    (contractExcerptStrategyMain longContract).length ≤ 1000 ∧
    contractExcerptClauseMain longContract = longContract :=
  contract_excerpt_budget longContract

/-! ### C8: chat-call temperatures -/

/-- C8 counterexample: the Regulatory Advisory extraction call of
`main_energy_trading_assistant.py` (line 163) runs at temperature 0.3,
not the claimed uniform 0.4. -/
theorem temperature_not_uniform_cex :
    chatCallsMain[3]? =
      some ⟨"Regulatory Advisory extract", 400, 3/10⟩ ∧
    ¬ ((3 / 10 : ℚ) = 2 / 5) :=
  ⟨rfl, by norm_num⟩

/-- C8 (amended): every chat call of
`Energy_Trading_Assistant_Complete.py` uses temperature 0.4; in
`main_energy_trading_assistant.py` every call uses 0.4 except the two
Regulatory Advisory calls and the Contract Clause Analysis call, which
use 0.3 — `max_tokens` being the only other per-call knob. -/
theorem temperature_per_call :
    chatCallsComplete.all (fun c => decide (c.temperature = 2/5)) = true ∧
    chatCallsMain.all
      (fun c => decide (c.temperature = 2/5 ∨ c.temperature = 3/10)) =
      true ∧
    (chatCallsMain.filter (fun c => decide (c.temperature = 3/10))).map
        ChatCall.tab =
      ["Regulatory Advisory extract", "Regulatory Advisory review",
       "Contract Clause Analysis"] := by
  refine ⟨?_, ?_, ?_⟩
  · norm_num [chatCallsComplete, List.all_cons]
  · norm_num [chatCallsMain, List.all_cons]
  · norm_num [chatCallsMain, List.filter_cons]

/-! ### C9: two-case selection of the actual value column -/

/-- C9: in both views, the `Actual (MW)` output column is drawn from the
actual table's column at index 2 when that table has more than two
columns and from its column at index 1 otherwise, then aligned to the
forecast's length (truncated, `NaN`-padded). -/
theorem actual_column_two_case (f a : Table)
    (_hfr : Rectangular f) (_har : Rectangular a)
    (_hf3 : 3 ≤ ncols f) (_ha2 : 2 ≤ ncols a) :
    (dfCombined f a).map CombinedRow.actualMW =
      (col a (if 2 < ncols a then 2 else 1)).take f.length ++
        List.replicate (f.length - a.length) none ∧
    (dfAccuracy f a).map AccuracyRow.actualMW =
      (col a (if 2 < ncols a then 2 else 1)).take f.length ++
        List.replicate (f.length - a.length) none := by
  have hsel : actualSeries a = col a (if 2 < ncols a then 2 else 1) := by
    unfold actualSeries
    by_cases h : 2 < ncols a <;> simp [h]
  have hlen : (actualSeries a).length = a.length := actualSeries_length a
  constructor
  · simp only [dfCombined, List.map_map]
    have hcomp :
        (CombinedRow.actualMW ∘ fun (i : ℕ) =>
            (⟨(f[i]?.getD []).take 3, (actualSeries a)[i]?.getD none⟩ :
              CombinedRow)) =
          fun (i : ℕ) => (actualSeries a)[i]?.getD none := rfl
    rw [hcomp, aligned_range_map, hlen, hsel]
  · simp only [dfAccuracy, List.map_map]
    have hcomp :
        (AccuracyRow.actualMW ∘ fun (i : ℕ) =>
            (⟨(col f 1)[i]?.getD none, (col f 2)[i]?.getD none,
              (actualSeries a)[i]?.getD none,
              cellSub ((actualSeries a)[i]?.getD none)
                ((col f 2)[i]?.getD none),
              pctOfDiff
                (cellSub ((actualSeries a)[i]?.getD none)
                  ((col f 2)[i]?.getD none))
                ((col f 2)[i]?.getD none)⟩ : AccuracyRow)) =
          fun (i : ℕ) => (actualSeries a)[i]?.getD none := rfl
    rw [hcomp, aligned_range_map, hlen, hsel]

/-- A 1-row forecast table for the C9 witness. -/
def c9Forecast : Table := [[Cell.num 1, Cell.num 10, Cell.num 100]]

/-- A 1-row, 3-column actual table (selection falls on column 2). -/
def c9WideActual : Table := [[Cell.num 1, Cell.num 10, Cell.num 90]]

/-- A 1-row, 2-column actual table (selection falls back on column 1). -/
def c9NarrowActual : Table := [[Cell.num 1, Cell.num 80]]

/-- C9 witness: the two-case selection evaluated on a 3-column actual
table and on a 2-column actual table, exercising both branches. -/
theorem actual_column_two_case_witness :
    ((dfCombined c9Forecast c9WideActual).map CombinedRow.actualMW =
       (col c9WideActual
         (if 2 < ncols c9WideActual then 2 else 1)).take c9Forecast.length ++
         List.replicate (c9Forecast.length - c9WideActual.length) none ∧
     (dfAccuracy c9Forecast c9WideActual).map AccuracyRow.actualMW =
       (col c9WideActual
         (if 2 < ncols c9WideActual then 2 else 1)).take c9Forecast.length ++
         List.replicate (c9Forecast.length - c9WideActual.length) none) ∧
    ((dfCombined c9Forecast c9NarrowActual).map CombinedRow.actualMW =
       (col c9NarrowActual
         (if 2 < ncols c9NarrowActual then 2 else 1)).take
           c9Forecast.length ++
         List.replicate (c9Forecast.length - c9NarrowActual.length) none ∧
     (dfAccuracy c9Forecast c9NarrowActual).map AccuracyRow.actualMW =
       (col c9NarrowActual
         (if 2 < ncols c9NarrowActual then 2 else 1)).take
           c9Forecast.length ++
         List.replicate (c9Forecast.length - c9NarrowActual.length) none) :=
  ⟨actual_column_two_case c9Forecast c9WideActual
     (by decide) (by decide) (by decide) (by decide),
   actual_column_two_case c9Forecast c9NarrowActual
     (by decide) (by decide) (by decide) (by decide)⟩

/-! ### C10: the 30-day price forecast table -/

/-- Rounding is monotone on rationals. -/
theorem round_mono_rat {x y : ℚ} (h : x ≤ y) : round x ≤ round y := by
  rw [round_eq, round_eq]
  exact Int.floor_mono (by linarith)

/-- Rounding a draw from `[0.11, 0.18]` to three decimal places stays in
the closed interval and lands on a multiple of `1/1000`. -/
theorem round3_bounds (q : ℚ) (h1 : 11/100 ≤ q) (h2 : q ≤ 18/100) :
    11/100 ≤ round3 q ∧ round3 q ≤ 18/100 ∧ (round3 q * 1000).den = 1 := by
  have hlo : (110 : ℤ) ≤ round (q * 1000) := by
    have h : round (((110 : ℤ) : ℚ)) ≤ round (q * 1000) :=
      round_mono_rat (by push_cast; linarith)
    rwa [round_intCast] at h
  have hhi : round (q * 1000) ≤ (180 : ℤ) := by
    have h : round (q * 1000) ≤ round (((180 : ℤ) : ℚ)) :=
      round_mono_rat (by push_cast; linarith)
    rwa [round_intCast] at h
  have hlo' : (110 : ℚ) ≤ ((round (q * 1000) : ℤ) : ℚ) := by exact_mod_cast hlo
  have hhi' : ((round (q * 1000) : ℤ) : ℚ) ≤ (180 : ℚ) := by exact_mod_cast hhi
  have hcancel : round3 q * 1000 = ((round (q * 1000) : ℤ) : ℚ) := by
    unfold round3
    rw [div_mul_cancel₀]
    norm_num
  refine ⟨?_, ?_, ?_⟩
  · unfold round3
    rw [le_div_iff₀ (by norm_num : (0 : ℚ) < 1000)]
    linarith
  · unfold round3
    rw [div_le_iff₀ (by norm_num : (0 : ℚ) < 1000)]
    linarith
  · rw [hcancel, Rat.den_intCast]

/-- The date column of the generated table is exactly today through
today plus 29 days. -/
theorem priceData_dates (today : ℤ) (u : ℕ → ℚ) :
    (priceData today u).map Prod.fst = expectedDates today := by
  unfold priceData expectedDates
  rw [List.map_map]
  rfl

/-- The date column of the generated table is strictly ascending. -/
theorem priceData_sorted (today : ℤ) (u : ℕ → ℚ) :
    strictAsc ((priceData today u).map Prod.fst) := by
  rw [priceData_dates]
  unfold strictAsc expectedDates
  rw [List.pairwise_map]
  refine List.Pairwise.imp ?_ (List.pairwise_lt_range 30)
  intro a b h
  show today + (a : ℤ) < today + (b : ℤ)
  omega

/-- Every generated price is a three-decimal value in `[0.11, 0.18]`. -/
theorem priceData_prices (today : ℤ) (u : ℕ → ℚ)
    (hu : ∀ i, 11/100 ≤ u i ∧ u i ≤ 18/100) :
    ((priceData today u).map Prod.snd).all priceOk = true := by
  rw [List.all_eq_true]
  intro p hp
  rw [List.mem_map] at hp
  obtain ⟨pair, hpair, rfl⟩ := hp
  rw [priceData, List.mem_map] at hpair
  obtain ⟨i, _, rfl⟩ := hpair
  unfold priceOk
  rw [decide_eq_true_eq]
  exact round3_bounds (u i) (hu i).1 (hu i).2

/-- C10: for every admissible random draw, the Price Forecast AI table
has exactly 30 rows, its dates are today through today plus 29 days in
ascending order, and every predicted price is a three-decimal value in
the closed interval `[0.11, 0.18]`. -/
theorem price_forecast_shape (today : ℤ) (u : ℕ → ℚ)
    (hu : ∀ i, 11/100 ≤ u i ∧ u i ≤ 18/100) :
    (priceData today u).length = 30 ∧
    (priceData today u).map Prod.fst = expectedDates today ∧
    strictAsc ((priceData today u).map Prod.fst) ∧
    ((priceData today u).map Prod.snd).all priceOk = true :=
  ⟨by simp [priceData], priceData_dates today u, priceData_sorted today u,
   priceData_prices today u hu⟩

/-- C10 witness: the shape theorem evaluated at day 0 with the constant
admissible draw 0.145. -/
theorem price_forecast_shape_witness :
    (priceData 0 constPrice).length = 30 ∧
    (priceData 0 constPrice).map Prod.fst = expectedDates 0 ∧
    strictAsc ((priceData 0 constPrice).map Prod.fst) ∧
    ((priceData 0 constPrice).map Prod.snd).all priceOk = true :=
  price_forecast_shape 0 constPrice
    (fun _ => ⟨by norm_num [constPrice], by norm_num [constPrice]⟩)

end EnergyTrading
